import Mathlib

/-
Formal model of `src/main.py` from the aws-live-video-rekognition repository:
a live-video loop that reads camera frames, encodes them to JPEG, sends them
to AWS Rekognition `detect_labels`, overlays the detected labels on the frame
and displays it, until end-of-stream or the user presses the exit key.

The embedding is a shallow one:
* `draw_labels` becomes the pure function `drawLabels`, parametrised by the
  text-measuring function `cv2.getTextSize` (an input of the environment);
* one pass of the `while True` body of `process_frames` becomes `runIter`,
  a function from the environment's choices for that iteration (camera read
  result, encode result, Rekognition outcome, pending key) to the list of
  observable events the body performs plus a flag saying whether the loop
  continues;
* `process_frames` becomes `processFrames`, folding `runIter` over a finite
  list of iteration inputs (a finite prefix of the environment's behaviour);
* `main` becomes `mainRun`, a function from a startup/loop scenario to the
  full event trace, including the `finally` cleanup block.

Numbers: label confidences are modelled as rationals; Python's `f"{c:.1f}"`
formatting of a nonnegative value is modelled by `fmt1` (round to the nearest
tenth, halves up, then print one decimal digit).
-/

namespace Rekog

/-- One detection returned by Rekognition: a dictionary with a `Name` and a
`Confidence`, as consumed by `draw_labels` (src/main.py lines 91-92). -/
structure Detection where
  name : String
  confidence : ℚ
deriving DecidableEq

/-- Model of Python's `f"{c:.1f}"` for the nonnegative confidences this
program prints: round `c` to the nearest tenth (halves up) and print the
integer part, a dot, and one decimal digit. -/
def fmt1 (q : ℚ) : String :=
  let t : ℤ := ⌊q * 10 + 1/2⌋
  Nat.repr (t / 10).toNat ++ "." ++ Nat.repr (t % 10).toNat

/-- The overlay text built at src/main.py line 92:
`text = f"{label['Name']} ({label['Confidence']:.1f}%)"`. -/
def labelText (d : Detection) : String :=
  d.name ++ " (" ++ fmt1 d.confidence ++ "%)"

/-- Result of `cv2.getTextSize(text, font, font_scale, font_thickness)`:
a width, a height and a baseline (src/main.py line 95). The font parameters
are fixed in the source, so the measuring function depends only on the text. -/
structure TextMetrics where
  w : Nat
  h : Nat
  baseline : Nat

/-- One label box drawn by an iteration of the loop in `draw_labels`
(src/main.py lines 91-104): the filled background rectangle, the text and
its position, and the anchor ordinate `y0` the iteration started from. -/
structure LabelBox where
  text : String
  y0 : ℤ
  rectLeft : ℤ
  rectTop : ℤ
  rectRight : ℤ
  rectBottom : ℤ
  textX : ℤ
  textY : ℤ

/-- The `for label in labels` loop of `draw_labels`, with the running anchor
`y0` made explicit. Constants from src/main.py lines 82-89: initial `y0 = 30`,
spacing `dy = 20`, `margin = 5`; per label the code draws the rectangle from
`(margin, y0 - h - margin)` to `(margin + w + margin, y0 + baseline + margin)`,
puts the text at `(margin + margin, y0 + baseline // 2)`, and then sets
`y0 += h + baseline + dy`. -/
def drawBoxes (ts : String → TextMetrics) : List Detection → ℤ → List LabelBox
  | [], _ => []
  | d :: rest, y0 =>
    let text := labelText d
    let m := ts text
    { text := text
      y0 := y0
      rectLeft := 5
      rectTop := y0 - (m.h : ℤ) - 5
      rectRight := 5 + (m.w : ℤ) + 5
      rectBottom := y0 + (m.baseline : ℤ) + 5
      textX := 10
      textY := y0 + ((m.baseline / 2 : ℕ) : ℤ) } :: drawBoxes ts rest (y0 + (m.h : ℤ) + (m.baseline : ℤ) + 20)

/-- The function `draw_labels(frame, labels)` (src/main.py lines 74-106),
described by the list of label boxes it draws onto the frame, in drawing
order, starting at `y0 = 30`. -/
def drawLabels (ts : String → TextMetrics) (labels : List Detection) : List LabelBox :=
  drawBoxes ts labels 30

/-- Frames are opaque values identified by a tag; the loop never inspects
their pixels, it only passes them to encode, draw and show. -/
abbrev Frame := Nat

/-- JPEG byte buffers produced by `cv2.imencode` are opaque byte strings. -/
abbrev Bytes := List Nat

/-- The Rekognition response as used at src/main.py line 137:
`labels = response.get('Labels', [])`. The `Labels` field may be absent. -/
structure RekResponse where
  labels : Option (List Detection)
deriving DecidableEq

/-- Outcome of the `rek_client.detect_labels` call: either a response or an
exception carrying a message (network, auth, throttling, malformed response -
the `except Exception` at src/main.py line 140 catches them all alike). -/
inductive RekResult where
  | ok (resp : RekResponse)
  | err (msg : String)
deriving DecidableEq

/-- The environment's choices for one pass of the `while True` body of
`process_frames` (src/main.py lines 115-153): the camera read result
(`none` models `ret == False`), the encode result (`none` models
`success == False`), the Rekognition outcome, and the value `cv2.waitKey(1)`
would return if the body reaches it. -/
structure IterInput where
  read : Option Frame
  encode : Option Bytes
  rekog : RekResult
  key : Nat
deriving DecidableEq

/-- Observable events of one pass of the loop body, in program order. -/
inductive Event where
  | readFrame
  | breakEOS
  | encodeWarn
  | rekogCall (bytes : Bytes) (maxLabels : Nat) (minConfidence : ℚ)
  | rekogError (msg : String)
  | draw (frame : Frame) (labels : List Detection)
  | imshow (frame : Frame)
  | keyCheck (key : Nat)
  | breakKey
deriving DecidableEq

/-- The ASCII code `ord('q')` compared against at src/main.py line 151. -/
def qKey : Nat := 113

/-- One pass of the `while True` body of `process_frames`
(src/main.py lines 115-153): returns the events the body performs and
`true` when the loop goes on to the next iteration, `false` on `break`.
`continue` statements (encode failure line 127, Rekognition failure line 142)
end the pass early with the flag `true`; the key check at line 150 masks the
`waitKey` value with `0xFF` and breaks on `ord('q')`. -/
def runIter (inp : IterInput) : List Event × Bool :=
  match inp.read with
  | none => ([.readFrame, .breakEOS], false)
  | some frame =>
    match inp.encode with
    | none => ([.readFrame, .encodeWarn], true)
    | some buf =>
      match inp.rekog with
      | .err e => ([.readFrame, .rekogCall buf 10 75, .rekogError e], true)
      | .ok resp =>
        let labels := resp.labels.getD []
        let evs := [Event.readFrame, .rekogCall buf 10 75, .draw frame labels,
                    .imshow frame, .keyCheck inp.key]
        if inp.key &&& 255 = qKey then (evs ++ [.breakKey], false) else (evs, true)

/-- The `while True` loop of `process_frames` (src/main.py lines 115-153),
run over a finite prefix of the environment's behaviour: iterate `runIter`
until it breaks or the supplied prefix of inputs is exhausted. -/
def processFrames : List IterInput → List Event
  | [] => []
  | inp :: rest =>
    let r := runIter inp
    if r.2 then r.1 ++ processFrames rest else r.1

/-- Number of `keyCheck` events (calls to `cv2.waitKey`) in a trace. -/
def countKeyCheck (evs : List Event) : Nat :=
  (evs.filter fun e => match e with | .keyCheck _ => true | _ => false).length

/-- How the `process_frames` call inside `main`'s `try` block ends:
either the loop returns normally after running on `iters` (end-of-stream or
exit key), or the body raises an unexpected exception after the complete
iterations `pre` (caught by `except Exception` at src/main.py line 171). -/
inductive LoopOutcome where
  | normal (iters : List IterInput)
  | raises (pre : List IterInput) (msg : String)

/-- A startup/loop scenario for `main` (src/main.py lines 155-181):
whether `initialize_rekognition` succeeds, whether `open_camera` succeeds
(else it raises `RuntimeError`, src/main.py line 70), and how the frame
loop ends if it is reached. -/
structure MainScenario where
  initOk : Bool
  openOk : Bool
  loop : LoopOutcome

/-- Observable events of `main`: the loop's events, plus the start of the
`finally` cleanup block, the `cap.release()` call and the
`cv2.destroyAllWindows()` call (src/main.py lines 173-181). -/
inductive MainEvent where
  | loopEv (e : Event)
  | cleanupStart
  | release
  | destroyWindows
deriving DecidableEq

/-- Events produced by the `process_frames` call for a given loop outcome:
on an unexpected exception the events of the completed iterations stand. -/
def loopEvents : LoopOutcome → List Event
  | .normal iters => processFrames iters
  | .raises pre _ => processFrames pre

/-- The function `main` (src/main.py lines 155-181). If initialisation fails
the script exits (`sys.exit(1)` in `initialize_rekognition`) with `cap` still
`None`; the `finally` block still runs, skips the release because `cap` is
falsy, and destroys the windows. If `open_camera` raises, the `RuntimeError`
is caught at line 169 and cleanup likewise skips the release. Otherwise the
loop runs (its exceptions are caught at line 171) and cleanup releases the
camera exactly once and destroys the windows. -/
def mainRun (s : MainScenario) : List MainEvent :=
  if s.initOk = false then [.cleanupStart, .destroyWindows]
  else if s.openOk = false then [.cleanupStart, .destroyWindows]
  else (loopEvents s.loop).map .loopEv ++ [.cleanupStart, .release, .destroyWindows]

/-- Number of `release` events in a `main` trace. -/
def countRelease (evs : List MainEvent) : Nat :=
  (evs.filter fun e => match e with | .release => true | _ => false).length

/-- Number of `destroyWindows` events in a `main` trace. -/
def countDestroy (evs : List MainEvent) : Nat :=
  (evs.filter fun e => match e with | .destroyWindows => true | _ => false).length

/-- Number of `cleanupStart` events (entries into the `finally` block). -/
def countCleanup (evs : List MainEvent) : Nat :=
  (evs.filter fun e => match e with | .cleanupStart => true | _ => false).length

/-- The two-detection input of the rendering scenario:
`[{"Cat", 91.2}, {"Table", 78.5}]`. -/
def catTable : List Detection :=
  [⟨"Cat", 91.2⟩, ⟨"Table", 78.5⟩]

/-- C1: when the `detect_labels` call fails with any exception, the loop body
logs the error, does not break, and the loop proceeds to the next iteration
(the session stays in its running loop). -/
theorem rekogFailureContinues (inp : IterInput) (f : Frame) (b : Bytes) (e : String)
    (h1 : inp.read = some f) (h2 : inp.encode = some b) (h3 : inp.rekog = .err e) :
    (runIter inp).2 = true ∧
    Event.rekogError e ∈ (runIter inp).1 ∧
    ∀ rest, processFrames (inp :: rest) = (runIter inp).1 ++ processFrames rest := by
  simp [runIter, processFrames, h1, h2, h3]

/-- Witness for C1 at a concrete iteration input with a throttling error. -/
theorem rekogFailureContinuesWitness :
    (runIter ⟨some 0, some [0], .err "throttled", 0⟩).2 = true ∧
    Event.rekogError "throttled" ∈ (runIter ⟨some 0, some [0], .err "throttled", 0⟩).1 ∧
    ∀ rest, processFrames ((⟨some 0, some [0], .err "throttled", 0⟩ : IterInput) :: rest) =
      (runIter ⟨some 0, some [0], .err "throttled", 0⟩).1 ++ processFrames rest :=
  rekogFailureContinues _ 0 [0] "throttled" rfl rfl rfl

/-- C3: when JPEG encoding fails, the body only logs a warning: no
`detect_labels` call happens that iteration and the loop continues. -/
theorem encodeFailureSkipsInference (inp : IterInput) (f : Frame)
    (h1 : inp.read = some f) (h2 : inp.encode = none) :
    (runIter inp).1 = [.readFrame, .encodeWarn] ∧
    (∀ b m c, Event.rekogCall b m c ∉ (runIter inp).1) ∧
    (runIter inp).2 = true ∧
    ∀ rest, processFrames (inp :: rest) = (runIter inp).1 ++ processFrames rest := by
  simp [runIter, processFrames, h1, h2]

/-- Witness for C3 at a concrete iteration input whose encode fails. -/
theorem encodeFailureSkipsInferenceWitness :
    (runIter ⟨some 0, none, .ok ⟨none⟩, 0⟩).1 = [.readFrame, .encodeWarn] ∧
    (∀ b m c, Event.rekogCall b m c ∉ (runIter ⟨some 0, none, .ok ⟨none⟩, 0⟩).1) ∧
    (runIter ⟨some 0, none, .ok ⟨none⟩, 0⟩).2 = true ∧
    ∀ rest, processFrames ((⟨some 0, none, .ok ⟨none⟩, 0⟩ : IterInput) :: rest) =
      (runIter ⟨some 0, none, .ok ⟨none⟩, 0⟩).1 ++ processFrames rest :=
  encodeFailureSkipsInference _ 0 rfl rfl

/-- C4: when the `detect_labels` call fails, the `continue` at src/main.py
line 142 skips the rest of the body: no frame (with any label list, stale or
otherwise) is drawn on and no frame is shown that iteration. -/
theorem rekogFailureNoRenderNoShow (inp : IterInput) (f : Frame) (b : Bytes) (e : String)
    (h1 : inp.read = some f) (h2 : inp.encode = some b) (h3 : inp.rekog = .err e) :
    (∀ fr L, Event.draw fr L ∉ (runIter inp).1) ∧
    ∀ fr, Event.imshow fr ∉ (runIter inp).1 := by
  simp [runIter, h1, h2, h3]

/-- Witness for C4 at a concrete iteration input whose inference fails. -/
theorem rekogFailureNoRenderNoShowWitness :
    (∀ fr L, Event.draw fr L ∉ (runIter ⟨some 0, some [0], .err "boom", 0⟩).1) ∧
    ∀ fr, Event.imshow fr ∉ (runIter ⟨some 0, some [0], .err "boom", 0⟩).1 :=
  rekogFailureNoRenderNoShow _ 0 [0] "boom" rfl rfl rfl

/-- C10: when `detect_labels` succeeds but the response has no `Labels`
field, `response.get('Labels', [])` yields the empty list, the frame is
still drawn on (with zero label boxes) and shown: such a response is not a
per-frame failure. -/
theorem missingLabelsDefaultsEmpty (inp : IterInput) (f : Frame) (b : Bytes)
    (h1 : inp.read = some f) (h2 : inp.encode = some b) (h3 : inp.rekog = .ok ⟨none⟩) :
    Event.draw f [] ∈ (runIter inp).1 ∧
    Event.imshow f ∈ (runIter inp).1 ∧
    ∀ ts, drawLabels ts [] = [] := by
  by_cases hk : inp.key &&& 255 = qKey <;>
    simp [runIter, drawLabels, drawBoxes, h1, h2, h3, hk]

/-- Witness for C10 at a concrete response lacking the `Labels` field. -/
theorem missingLabelsDefaultsEmptyWitness :
    Event.draw 0 [] ∈ (runIter ⟨some 0, some [0], .ok ⟨none⟩, 0⟩).1 ∧
    Event.imshow 0 ∈ (runIter ⟨some 0, some [0], .ok ⟨none⟩, 0⟩).1 ∧
    ∀ ts, drawLabels ts [] = [] :=
  missingLabelsDefaultsEmpty _ 0 [0] rfl rfl rfl

/-- Any `detect_labels` call a single loop-body pass makes carries
`MaxLabels = 10` and `MinConfidence = 75` (src/main.py lines 132-136). -/
theorem runIterCallParams (inp : IterInput) (b : Bytes) (m : Nat) (c : ℚ)
    (h : Event.rekogCall b m c ∈ (runIter inp).1) : m = 10 ∧ c = 75 := by
  obtain ⟨read, enc, rk, key⟩ := inp
  rcases read with _ | f
  · simp [runIter] at h
  rcases enc with _ | buf
  · simp [runIter] at h
  rcases rk with resp | msg
  · by_cases hk : key &&& 255 = qKey <;> simp [runIter, hk] at h <;> tauto
  · simp [runIter] at h; tauto

/-- C8: every inference request issued across a whole run of the frame loop
carries `MaxLabels = 10` and `MinConfidence = 75`. -/
theorem rekogRequestParams (inputs : List IterInput) (b : Bytes) (m : Nat) (c : ℚ)
    (h : Event.rekogCall b m c ∈ processFrames inputs) : m = 10 ∧ c = 75 := by
  induction inputs with
  | nil => simp [processFrames] at h
  | cons inp rest ih =>
    rw [processFrames] at h
    by_cases hc : (runIter inp).2 <;> simp [hc] at h
    · rcases h with h | h
      · exact runIterCallParams inp b m c h
      · exact ih h
    · exact runIterCallParams inp b m c h

/-- Witness for C8: a one-iteration run issues exactly the modelled call. -/
theorem rekogRequestParamsWitness :
    Event.rekogCall [1] 10 75 ∈ processFrames [⟨some 0, some [1], .ok ⟨some []⟩, 0⟩] ∧
    (10 : Nat) = 10 ∧ (75 : ℚ) = 75 :=
  ⟨by simp [processFrames, runIter, qKey],
   rekogRequestParams [⟨some 0, some [1], .ok ⟨some []⟩, 0⟩] [1] 10 75
     (by simp [processFrames, runIter, qKey])⟩

/-- C5 counterexample: it is not true that every iteration of the running
loop checks the exit signal exactly once. An iteration whose JPEG encode
fails ends in `continue` before ever reaching `cv2.waitKey`, so the exit
signal is checked zero times that iteration. -/
theorem keyCheckNotEveryIteration :
    ¬ ∀ inp : IterInput, inp.read.isSome = true → countKeyCheck (runIter inp).1 = 1 := by
  intro h
  have h0 := h ⟨some 0, none, .ok ⟨none⟩, qKey⟩ rfl
  simp [runIter, countKeyCheck] at h0

/-- C5 amended: in every iteration that reaches the display step (read,
encode and inference all succeed), the exit signal is checked exactly once;
and if the masked key equals `ord('q')` the loop breaks after that iteration
and does not begin the next one. -/
theorem keyCheckOncePerDisplayedIteration (inp : IterInput) (f : Frame) (b : Bytes)
    (resp : RekResponse) (h1 : inp.read = some f) (h2 : inp.encode = some b)
    (h3 : inp.rekog = .ok resp) :
    countKeyCheck (runIter inp).1 = 1 ∧
    (inp.key &&& 255 = qKey →
      (runIter inp).2 = false ∧
      ∀ rest, processFrames (inp :: rest) = (runIter inp).1) := by
  by_cases hk : inp.key &&& 255 = qKey <;>
    simp [runIter, processFrames, countKeyCheck, h1, h2, h3, hk]

/-- Witness for the amended C5 at a concrete iteration input where `q`
(ASCII 113) is pending. -/
theorem keyCheckOncePerDisplayedIterationWitness :
    countKeyCheck (runIter ⟨some 0, some [0], .ok ⟨none⟩, 113⟩).1 = 1 ∧
    ((113 : Nat) &&& 255 = qKey →
      (runIter ⟨some 0, some [0], .ok ⟨none⟩, 113⟩).2 = false ∧
      ∀ rest, processFrames ((⟨some 0, some [0], .ok ⟨none⟩, 113⟩ : IterInput) :: rest) =
        (runIter ⟨some 0, some [0], .ok ⟨none⟩, 113⟩).1) :=
  keyCheckOncePerDisplayedIteration _ 0 [0] ⟨none⟩ rfl rfl rfl

/-- Any event coming from inside the frame loop is neither a release nor a
window teardown nor a cleanup entry, so loop events never add to the
cleanup counters of a `main` trace. -/
theorem loopEvCounters (l : List Event) :
    countRelease (l.map .loopEv) = 0 ∧
    countDestroy (l.map .loopEv) = 0 ∧
    countCleanup (l.map .loopEv) = 0 := by
  induction l with
  | nil => exact ⟨rfl, rfl, rfl⟩
  | cons e rest ih =>
    simp only [countRelease, countDestroy, countCleanup, List.map_cons,
      List.filter_cons] at ih ⊢
    exact ih

/-- C6: on every exit path of a session that entered the frame loop -
end-of-stream, exit key, or an unexpected exception in the loop body (all
covered by the arbitrary loop outcome in the scenario) - the `finally`
cleanup block runs exactly once, releases the camera exactly once and
destroys the display windows exactly once. -/
theorem cleanupExactlyOnce (s : MainScenario) (h1 : s.initOk = true) (h2 : s.openOk = true) :
    countCleanup (mainRun s) = 1 ∧
    countRelease (mainRun s) = 1 ∧
    countDestroy (mainRun s) = 1 := by
  obtain ⟨hr, hd, hc⟩ := loopEvCounters (loopEvents s.loop)
  simp only [mainRun, h1, h2, Bool.true_eq_false, if_false]
  simp only [countRelease, countDestroy, countCleanup, List.filter_append,
    List.length_append] at hr hd hc ⊢
  simp [hr, hd, hc, countRelease, countDestroy, countCleanup]

/-- Witness for C6 on a concrete scenario with an immediate end-of-stream. -/
theorem cleanupExactlyOnceWitness :
    countCleanup (mainRun ⟨true, true, .normal [⟨none, none, .ok ⟨none⟩, 0⟩]⟩) = 1 ∧
    countRelease (mainRun ⟨true, true, .normal [⟨none, none, .ok ⟨none⟩, 0⟩]⟩) = 1 ∧
    countDestroy (mainRun ⟨true, true, .normal [⟨none, none, .ok ⟨none⟩, 0⟩]⟩) = 1 :=
  cleanupExactlyOnce ⟨true, true, .normal [⟨none, none, .ok ⟨none⟩, 0⟩]⟩ rfl rfl

/-- C9: when the camera cannot be opened at startup, the frame loop is never
entered (no loop event, in particular no frame request, appears in the
trace), yet cleanup still runs exactly once, skips the release of the
never-acquired camera handle, and still destroys the display windows. -/
theorem cameraOpenFailureAborts (s : MainScenario) (h1 : s.initOk = true)
    (h2 : s.openOk = false) :
    mainRun s = [.cleanupStart, .destroyWindows] ∧
    (∀ e, MainEvent.loopEv e ∉ mainRun s) ∧
    countRelease (mainRun s) = 0 ∧
    countDestroy (mainRun s) = 1 ∧
    countCleanup (mainRun s) = 1 := by
  simp [mainRun, h1, h2, countRelease, countDestroy, countCleanup]

/-- Witness for C9 on a concrete scenario whose camera fails to open. -/
theorem cameraOpenFailureAbortsWitness :
    mainRun ⟨true, false, .normal []⟩ = [.cleanupStart, .destroyWindows] ∧
    (∀ e, MainEvent.loopEv e ∉ mainRun ⟨true, false, .normal []⟩) ∧
    countRelease (mainRun ⟨true, false, .normal []⟩) = 0 ∧
    countDestroy (mainRun ⟨true, false, .normal []⟩) = 1 ∧
    countCleanup (mainRun ⟨true, false, .normal []⟩) = 1 :=
  cameraOpenFailureAborts ⟨true, false, .normal []⟩ rfl rfl

/-- The `for` loop of `draw_labels` draws one box per detection. -/
theorem drawBoxes_length (ts : String → TextMetrics) (D : List Detection) :
    ∀ y : ℤ, (drawBoxes ts D y).length = D.length := by
  induction D with
  | nil => intro y; rfl
  | cons d rest ih => intro y; simp [drawBoxes, ih]

/-- The boxes carry the labels' overlay texts in detection order. -/
theorem drawBoxes_texts (ts : String → TextMetrics) (D : List Detection) :
    ∀ y : ℤ, (drawBoxes ts D y).map LabelBox.text = D.map labelText := by
  induction D with
  | nil => intro y; rfl
  | cons d rest ih => intro y; simp [drawBoxes, ih]

/-- The first box of a nonempty drawing starts at the supplied anchor. -/
theorem drawBoxes_head_y0 (ts : String → TextMetrics) (d : Detection)
    (rest : List Detection) (y : ℤ) :
    ((drawBoxes ts (d :: rest) y).head?).map LabelBox.y0 = some y := by
  simp [drawBoxes]

/-- Consecutive boxes differ in anchor by exactly text height plus baseline
plus the spacing `dy = 20` of the box above (src/main.py line 104). -/
theorem drawBoxes_chain_step (ts : String → TextMetrics) (D : List Detection) :
    ∀ y : ℤ, List.Chain'
      (fun a b => b.y0 = a.y0 + (((ts a.text).h : ℤ) + ((ts a.text).baseline : ℤ) + 20))
      (drawBoxes ts D y) := by
  induction D with
  | nil => intro y; simp [drawBoxes]
  | cons d rest ih =>
    intro y
    cases rest with
    | nil => simp [drawBoxes]
    | cons d2 rest2 =>
      rw [drawBoxes, drawBoxes]
      refine List.chain'_cons.mpr ⟨?_, ?_⟩
      · simp only []
        omega
      · rw [← drawBoxes]
        exact ih _

/-- Successive boxes sit strictly lower on the screen: anchors increase. -/
theorem drawBoxes_chain_lt (ts : String → TextMetrics) (D : List Detection) :
    ∀ y : ℤ, List.Chain' (fun a b => a.y0 < b.y0) (drawBoxes ts D y) := by
  induction D with
  | nil => intro y; simp [drawBoxes]
  | cons d rest ih =>
    intro y
    cases rest with
    | nil => simp [drawBoxes]
    | cons d2 rest2 =>
      rw [drawBoxes, drawBoxes]
      refine List.chain'_cons.mpr ⟨?_, ?_⟩
      · have hpos : (0 : ℤ) ≤ ((ts (labelText d)).h : ℤ) := Int.ofNat_nonneg _
        have hpos2 : (0 : ℤ) ≤ ((ts (labelText d)).baseline : ℤ) := Int.ofNat_nonneg _
        simp only []
        omega
      · rw [← drawBoxes]
        exact ih _

/-- C2: `draw_labels` draws exactly one label box per detection, in
detection order, the first anchored at `y0 = 30`, each next anchor exactly
text height + baseline + 20 below the previous one, hence strictly
increasing down the screen. -/
theorem drawLabelsSpec (ts : String → TextMetrics) (D : List Detection) :
    (drawLabels ts D).length = D.length ∧
    (drawLabels ts D).map LabelBox.text = D.map labelText ∧
    ((drawLabels ts D).head?).map LabelBox.y0 = D.head?.map (fun _ => (30 : ℤ)) ∧
    List.Chain'
      (fun a b => b.y0 = a.y0 + (((ts a.text).h : ℤ) + ((ts a.text).baseline : ℤ) + 20))
      (drawLabels ts D) ∧
    List.Chain' (fun a b => a.y0 < b.y0) (drawLabels ts D) := by
  refine ⟨drawBoxes_length ts D 30, drawBoxes_texts ts D 30, ?_,
    drawBoxes_chain_step ts D 30, drawBoxes_chain_lt ts D 30⟩
  cases D with
  | nil => rfl
  | cons d rest => simp [drawLabels, drawBoxes_head_y0]

/-- Formatting of the confidence 91.2 to one decimal place. -/
theorem fmt1_cat : fmt1 (91.2 : ℚ) = "91.2" := by
  have h : ⌊(91.2 : ℚ) * 10 + 1/2⌋ = 912 := by norm_num
  simp only [fmt1, h]
  rfl

/-- Formatting of the confidence 78.5 to one decimal place. -/
theorem fmt1_table : fmt1 (78.5 : ℚ) = "78.5" := by
  have h : ⌊(78.5 : ℚ) * 10 + 1/2⌋ = 785 := by norm_num
  simp only [fmt1, h]
  rfl

/-- C7: on the detections `[{"Cat", 91.2}, {"Table", 78.5}]` the rendered
texts are exactly `"Cat (91.2%)"` then `"Table (78.5%)"` (each detection's
text being its name, the confidence to one decimal place and a percent
sign), with the second box strictly below the first. -/
theorem catTableRender (ts : String → TextMetrics) :
    (drawLabels ts catTable).map LabelBox.text = ["Cat (91.2%)", "Table (78.5%)"] ∧
    List.Chain' (fun a b => a.y0 < b.y0) (drawLabels ts catTable) := by
  refine ⟨?_, drawBoxes_chain_lt ts catTable 30⟩
  rw [drawLabels, drawBoxes_texts ts catTable 30]
  simp only [catTable, List.map_cons, List.map_nil, labelText, fmt1_cat, fmt1_table]
  rfl

end Rekog
